import Mathlib

/-!
Shallow embedding of the `n8n-nodes-lmstudio` node
(`nodes/LmStudioSimpleMessage/LmStudioSimpleMessage.node.ts`, credentialed
variant: the one with `getModels` load options, `_metadata` packaging and the
timeout classification; this is the variant exercised by the unit tests).

JavaScript values and runtime primitives are modelled explicitly:
* JSON values are an inductive `Json` type; the runtime builtin `JSON.parse`
  is an oracle parameter `parse : String → Except String Json` (the `.error`
  payload is the runtime exception message).
* JS numbers appearing in the node (temperature, maxTokens, timeout) are
  modelled as `Int`: the node only copies them and compares against `0`.
* `String.prototype.trim`, `String.prototype.startsWith` and the trailing
  slash strip `replace(/\/+$/, '')` are given list-based executable models.
-/

/-- JSON value, as produced by `JSON.parse`. Objects are modelled as
association lists in insertion order (duplicate keys already collapsed by the
parser oracle). -/
inductive Json where
  | null
  | bool (b : Bool)
  | num (n : Int)
  | str (s : String)
  | arr (elems : List Json)
  | obj (fields : List (String × Json))

/-- Model of `Object.keys(v).length` for a parsed JSON value. `none` models
the `TypeError` that `Object.keys(null)` throws; for strings `Object.keys`
yields the character indices, for arrays the element indices, for other
primitives the empty list. -/
def objKeysCount : Json → Option Nat
  | Json.null => none
  | Json.bool _ => some 0
  | Json.num _ => some 0
  | Json.str s => some s.length
  | Json.arr elems => some elems.length
  | Json.obj fields => some fields.length

/-- A JS value that is either a number or a string, the runtime type of the
`maxTokens` parameter (`number | string`, the empty string being the
default). -/
inductive JsNumOrStr where
  | num (n : Int)
  | str (s : String)
deriving Repr, DecidableEq

/-- Model of `String.prototype.trim`: drop whitespace from both ends. -/
def jsTrim (s : String) : String :=
  ⟨((s.data.dropWhile Char.isWhitespace).reverse.dropWhile Char.isWhitespace).reverse⟩

/-- Model of `s.startsWith(p)`. -/
def startsWithLit (s p : String) : Bool :=
  p.data.isPrefixOf s.data

/-- Model of `base.replace(/\/+$/, '')`: remove every trailing `/`. -/
def stripTrailingSlashes (s : String) : String :=
  ⟨(s.data.reverse.dropWhile (fun c => c == '/')).reverse⟩

/-- Whether the last character of `s` is a slash (used to state the
no-double-slash-at-the-join property of `buildUrl`). -/
def lastIsSlash (s : String) : Bool :=
  s.data.getLast? == some '/'

/-- Protocol auto-detection from `buildUrl`: prefix `http://` when the host
URL starts with neither `http://` nor `https://`. -/
def withScheme (hostUrl : String) : String :=
  if startsWithLit hostUrl "http://" = false ∧ startsWithLit hostUrl "https://" = false then
    "http://" ++ hostUrl
  else
    hostUrl

/-- `buildUrl(hostUrl, path)` from the source: auto-prefix the scheme, strip
trailing slashes from the base, append the endpoint path. -/
def buildUrl (hostUrl path : String) : String :=
  stripTrailingSlashes (withScheme hostUrl) ++ path

/-- The per-item node parameters read via `getNodeParameter`. -/
structure Params where
  modelName : String
  message : String
  temperature : Int
  maxTokens : JsNumOrStr
  timeout : Int
  jsonSchemaStr : String
deriving Repr, DecidableEq

/-- One entry of the `messages` array of the request body. -/
structure ChatMessage where
  role : String
  content : String
deriving Repr, DecidableEq

/-- The `json_schema` wrapper the node builds around a user schema. -/
structure JsonSchemaWrapper where
  name : String
  strict : Bool
  schema : Json

/-- The `response_format` field of the request body. -/
structure ResponseFormat where
  type : String
  json_schema : JsonSchemaWrapper

/-- The POST body sent to `/v1/chat/completions`. Optional JSON fields are
`Option` (absent = `none`). -/
structure RequestBody where
  model : String
  messages : List ChatMessage
  temperature : Int
  max_tokens : Option Int
  response_format : Option ResponseFormat

/-- The `max_tokens` conditional from the source:
`if (maxTokens && typeof maxTokens === 'number' && maxTokens > 0)`.
For a number, truthiness means `≠ 0`; for a string the `typeof` test fails. -/
def maxTokensField : JsNumOrStr → Option Int
  | JsNumOrStr.num n => if n ≠ 0 ∧ 0 < n then some n else none
  | JsNumOrStr.str _ => none

/-- Errors thrown by the per-item processing. `opErr` models
`NodeOperationError`, `apiErr` models `NodeApiError`; the payload is the
error message. -/
inductive ExecErr where
  | opErr (message : String)
  | apiErr (message : String)
deriving Repr, DecidableEq

/-- The `.message` of a thrown error, as read by the continue-on-fail
handler. -/
def ExecErr.message : ExecErr → String
  | ExecErr.opErr m => m
  | ExecErr.apiErr m => m

/-- Request-body construction (source lines building `requestBody` and the
JSON-schema block). Returns the body together with the `hasJsonSchema` flag.
The `typeof jsonSchemaStr === 'string'` conjunct of the source condition is
statically true in this model, where the parameter is a string. -/
def buildRequestBody (parse : String → Except String Json) (p : Params) :
    Except ExecErr (RequestBody × Bool) :=
  let base : RequestBody :=
    { model := p.modelName
      messages := [{ role := "user", content := p.message }]
      temperature := p.temperature
      max_tokens := maxTokensField p.maxTokens
      response_format := none }
  if p.jsonSchemaStr ≠ "" ∧ jsTrim p.jsonSchemaStr ≠ "" then
    match parse p.jsonSchemaStr with
    | Except.error m => Except.error (ExecErr.opErr ("Invalid JSON Schema: " ++ m))
    | Except.ok parsedSchema =>
      match objKeysCount parsedSchema with
      | none =>
        Except.error
          (ExecErr.opErr "Invalid JSON Schema: Cannot convert undefined or null to object")
      | some k =>
        if 0 < k then
          Except.ok
            ({ base with
                response_format := some
                  { type := "json_schema"
                    json_schema :=
                      { name := "outputSchema", strict := true, schema := parsedSchema } } },
              true)
        else
          Except.ok (base, false)
  else
    Except.ok (base, false)

/-- A transport failure as caught around `this.helpers.httpRequest`:
`code`, `cause?.code` and `message` of the thrown error. -/
structure TransportError where
  code : Option String
  causeCode : Option String
  message : String
deriving Repr, DecidableEq

/-- The source expression `err.code ?? err.cause?.code`. -/
def jsErrorCode (e : TransportError) : Option String :=
  e.code.orElse fun _ => e.causeCode

/-- The timeout classification of the source:
`errorCode === 'ETIMEDOUT' || errorCode === 'ESOCKETTIMEDOUT' || errorCode === 'ECONNABORTED'`. -/
def isTimeoutCode (e : TransportError) : Bool :=
  jsErrorCode e == some "ETIMEDOUT" ||
    jsErrorCode e == some "ESOCKETTIMEDOUT" ||
    jsErrorCode e == some "ECONNABORTED"

/-- Error translation of a transport failure (the `catch` around the POST):
timeout-classified codes raise the dedicated timeout `NodeOperationError`
naming the configured timeout, anything else raises a `NodeApiError` whose
message carries the underlying error message. -/
def classifyTransportError (timeout : Int) (e : TransportError) : ExecErr :=
  if isTimeoutCode e = true then
    ExecErr.opErr
      ("Request timed out after " ++ toString timeout ++
        " seconds. Consider increasing the timeout for larger models.")
  else
    ExecErr.apiErr ("LM Studio request failed: " ++ e.message)

/-- The raw `choices[i].message` object; `content` is `none` when the field
is missing or null. -/
structure RawMessage where
  content : Option String

/-- One entry of the raw `choices` array. -/
structure RawChoice where
  message : Option RawMessage
  finish_reason : Option String

/-- The raw HTTP response body of the chat-completions call. Every field may
be absent in a malformed response. -/
structure RawChatResponse where
  choices : Option (List RawChoice)
  model : Option String
  usage : Option Json
  created : Option Int
  id : Option String

/-- The `_metadata` object packaged with every successful output. -/
structure Metadata where
  model : Option String
  usage : Option Json
  created : Option Int
  id : Option String
  finish_reason : Option String

/-- The `response` field of a successful output: a raw string when no schema
was requested, a parsed JSON value otherwise. -/
inductive ResponseVal where
  | str (s : String)
  | json (j : Json)

/-- The JSON payload of a successful output item
(`\x7b response, _metadata \x7d`). -/
structure SuccessJson where
  response : ResponseVal
  metadata : Metadata

/-- Response validation and mapping (source: structure check, content check,
metadata packaging, optional JSON-parse of the content). -/
def mapResponse (parse : String → Except String Json) (hasJsonSchema : Bool)
    (r : RawChatResponse) : Except ExecErr SuccessJson :=
  match r.choices with
  | some (c :: _) =>
    match c.message with
    | some msg =>
      match msg.content with
      | some content =>
        if content = "" then
          Except.error (ExecErr.opErr "No content in response from LM Studio")
        else
          let md : Metadata :=
            { model := r.model
              usage := r.usage
              created := r.created
              id := r.id
              finish_reason := c.finish_reason }
          if hasJsonSchema then
            match parse content with
            | Except.ok j => Except.ok { response := ResponseVal.json j, metadata := md }
            | Except.error m =>
              Except.error
                (ExecErr.opErr
                  ("Failed to parse response as JSON: " ++ m ++ ". Content: " ++ content))
          else
            Except.ok { response := ResponseVal.str content, metadata := md }
      | none => Except.error (ExecErr.opErr "No content in response from LM Studio")
    | none => Except.error (ExecErr.opErr "Invalid response structure from LM Studio")
  | _ => Except.error (ExecErr.opErr "Invalid response structure from LM Studio")

/-- Processing of a single input item: build the request body, send it (the
transport outcome for this item is supplied as data; a transport failure is
translated by `classifyTransportError`), then map the response. -/
def processItem (parse : String → Except String Json) (p : Params)
    (transport : Except TransportError RawChatResponse) : Except ExecErr SuccessJson :=
  match buildRequestBody parse p with
  | Except.error e => Except.error e
  | Except.ok (_body, hasJsonSchema) =>
    match transport with
    | Except.error e => Except.error (classifyTransportError p.timeout e)
    | Except.ok r => mapResponse parse hasJsonSchema r

/-- The JSON payload of an emitted output item: success payload, or the
`\x7b error: message \x7d` row pushed when continue-on-fail is set. -/
inductive ItemJson where
  | success (s : SuccessJson)
  | failure (error : String)

/-- An emitted output item with its `pairedItem` index. -/
structure OutputItem where
  json : ItemJson
  pairedItem : Nat

/-- The per-item loop of `execute`: each input item carries its parameters
and the outcome of its HTTP call. With continue-on-fail a failing item
becomes an error row; otherwise the error aborts the run, tagged with the
item index (every error thrown inside the loop body for item `i` carries
`itemIndex = i` in the source). -/
def runItems (parse : String → Except String Json) (continueOnFail : Bool) :
    Nat → List (Params × Except TransportError RawChatResponse) →
      Except (Nat × ExecErr) (List OutputItem)
  | _, [] => Except.ok []
  | i, (p, t) :: rest =>
    match processItem parse p t with
    | Except.ok s =>
      match runItems parse continueOnFail (i + 1) rest with
      | Except.ok outs => Except.ok ({ json := ItemJson.success s, pairedItem := i } :: outs)
      | Except.error e => Except.error e
    | Except.error e =>
      if continueOnFail then
        match runItems parse continueOnFail (i + 1) rest with
        | Except.ok outs =>
          Except.ok ({ json := ItemJson.failure (ExecErr.message e), pairedItem := i } :: outs)
        | Except.error e2 => Except.error e2
      else
        Except.error (i, e)

/-- One entry of the `data` array of the models endpoint response. -/
structure LmStudioModel where
  id : String
  type : Option String
  state : Option String
  quantization : Option String
deriving Repr, DecidableEq

/-- One dropdown option produced by `getModels`. -/
structure ModelOption where
  name : String
  value : String
  description : Option String
deriving Repr, DecidableEq

/-- The filter of `getModels`: `model.type === 'llm' || model.type === 'vlm'`. -/
def isLlmOrVlm (md : LmStudioModel) : Bool :=
  md.type == some "llm" || md.type == some "vlm"

/-- The map step of `getModels`: display name with ` (loaded)` suffix when
the state is `loaded`, value is the id, description `Quantization: <q>` when
a (truthy, i.e. nonempty) quantization label is present. -/
def formatModel (md : LmStudioModel) : ModelOption :=
  { name := md.id ++ (if md.state = some "loaded" then " (loaded)" else "")
    value := md.id
    description :=
      match md.quantization with
      | some q => if q ≠ "" then some ("Quantization: " ++ q) else none
      | none => none }

/-- The boolean order derived from a `localeCompare`-style comparator: `a`
sorts no later than `b` when the comparator is nonpositive. -/
def lcLe (lc : String → String → Int) (a b : String) : Bool :=
  decide (lc a b ≤ 0)

/-- Sentinel returned when the models GET call throws. -/
def couldNotConnectOption : ModelOption :=
  { name := "Could Not Connect to LM Studio", value := "", description := none }

/-- Sentinel returned when the body has no `data` array or the filtered list
is empty. -/
def noModelsOption : ModelOption :=
  { name := "No Models Found", value := "", description := none }

/-- The `getModels` load-options method. The outcome of the GET call is
supplied as data: `Except.error ()` models a thrown transport error
(including non-2xx), `Except.ok none` a body whose `data` is missing or not
an array, `Except.ok (some data)` a well-formed body. `lc` is the
locale-aware `localeCompare` of the runtime; the JS `Array.prototype.sort`
with that comparator is modelled by the stable `List.mergeSort`. -/
def getModels (lc : String → String → Int)
    (outcome : Except Unit (Option (List LmStudioModel))) : List ModelOption :=
  match outcome with
  | Except.error _ => [couldNotConnectOption]
  | Except.ok none => [noModelsOption]
  | Except.ok (some data) =>
    let models :=
      ((data.filter isLlmOrVlm).map formatModel).mergeSort
        (fun a b => lcLe lc a.name b.name)
    if models.length = 0 then [noModelsOption] else models

/-- A concrete `JSON.parse` oracle for witnesses: two designated strings
parse to fixed objects, everything else fails the way the runtime does. -/
def sampleParse : String → Except String Json
  | "schemaOneKey" => Except.ok (Json.obj [("type", Json.str "object")])
  | "contentGreeting" => Except.ok (Json.obj [("greeting", Json.str "hi")])
  | s => Except.error ("Unexpected token " ++ s)

/-- Parameters of a plain (no schema) chat item, mirroring the unit-test
defaults. -/
def plainParams : Params :=
  { modelName := "test-model"
    message := "Hello"
    temperature := 0
    maxTokens := JsNumOrStr.str ""
    timeout := 0
    jsonSchemaStr := "" }

/-- Parameters requesting a JSON schema. -/
def schemaParams : Params :=
  { plainParams with jsonSchemaStr := "schemaOneKey" }

/-- Parameters whose schema string is rejected by the parse oracle. -/
def badSchemaParams : Params :=
  { plainParams with jsonSchemaStr := "badjson" }

/-- Parameters whose schema string is whitespace only: non-empty, not valid
JSON, yet skipped by the trim check. -/
def blankSchemaParams : Params :=
  { plainParams with jsonSchemaStr := " " }

/-- Plain parameters with a 30 second timeout. -/
def timeout30Params : Params :=
  { plainParams with timeout := 30 }

/-- A well-formed chat response with plain text content. -/
def sampleResp : RawChatResponse :=
  { choices := some [{ message := some { content := some "Hello world" }, finish_reason := some "stop" }]
    model := some "test-model"
    usage := some (Json.obj [("prompt_tokens", Json.num 5), ("completion_tokens", Json.num 10)])
    created := some 1700000000
    id := some "chatcmpl-abc" }

/-- A well-formed chat response whose content parses as JSON under
`sampleParse`. -/
def jsonContentResp : RawChatResponse :=
  { sampleResp with
      choices := some [{ message := some { content := some "contentGreeting" }, finish_reason := some "stop" }] }

/-- A transport failure carrying a timeout code on the error cause. -/
def timeoutTransportError : TransportError :=
  { code := none, causeCode := some "ETIMEDOUT", message := "timeout" }

/-- A generic, non-timeout transport failure. -/
def genericTransportError : TransportError :=
  { code := none, causeCode := none, message := "Connection refused" }

/-- A concrete comparator standing in for `localeCompare`: the lexicographic
order on strings. -/
def sampleLc (a b : String) : Int :=
  if a < b then -1 else if b < a then 1 else 0

/-- The models-endpoint `data` array of the unit test: two LLMs, one VLM and
one ASR entry. -/
def sampleModels : List LmStudioModel :=
  [ { id := "zephyr-7b", type := some "llm", state := some "not-loaded", quantization := some "Q4_K_M" }
  , { id := "llama-3", type := some "llm", state := some "loaded", quantization := none }
  , { id := "whisper-v3", type := some "asr", state := none, quantization := none }
  , { id := "gemma-2", type := some "vlm", state := some "not-loaded", quantization := none } ]

/-- Erase the `max_tokens` field of a request-build outcome, for stating
that nothing else of the body depends on the `maxTokens` parameter. -/
def stripMaxTokens :
    Except ExecErr (RequestBody × Bool) → Except ExecErr (RequestBody × Bool)
  | Except.ok (b, h) => Except.ok ({ b with max_tokens := none }, h)
  | Except.error e => Except.error e

/-- C1: for a chat item with no JSON schema requested, a response carrying a
non-empty `choices[0].message.content` yields an output whose `response` is
the raw content string and whose metadata copies `model`, `usage`,
`created`, `id` and `finish_reason` from the response. -/
theorem claim_C1_plain_response_and_metadata
    (parse : String → Except String Json) (p : Params) (body : RequestBody)
    (resp : RawChatResponse) (c : RawChoice) (cs : List RawChoice)
    (m : RawMessage) (content : String)
    (hbuild : buildRequestBody parse p = Except.ok (body, false))
    (hch : resp.choices = some (c :: cs))
    (hm : c.message = some m)
    (hc : m.content = some content)
    (hne : content ≠ "") :
    processItem parse p (Except.ok resp) = Except.ok
      { response := ResponseVal.str content
        metadata :=
          { model := resp.model
            usage := resp.usage
            created := resp.created
            id := resp.id
            finish_reason := c.finish_reason } } := by
  unfold processItem
  rw [hbuild]
  show mapResponse parse false resp = _
  unfold mapResponse
  rw [hch]
  dsimp only
  rw [hm]
  dsimp only
  rw [hc]
  simp [hne]

/-- Witness for C1 at the unit-test scenario: plain parameters, a response
with content `Hello world`. -/
theorem claim_C1_witness :
    processItem sampleParse plainParams (Except.ok sampleResp) = Except.ok
      { response := ResponseVal.str "Hello world"
        metadata :=
          { model := some "test-model"
            usage := some (Json.obj [("prompt_tokens", Json.num 5), ("completion_tokens", Json.num 10)])
            created := some 1700000000
            id := some "chatcmpl-abc"
            finish_reason := some "stop" } } :=
  claim_C1_plain_response_and_metadata sampleParse plainParams _ sampleResp
    { message := some { content := some "Hello world" }, finish_reason := some "stop" } []
    { content := some "Hello world" } "Hello world" rfl rfl rfl rfl (by decide)

/-- C2: for a chat item with a JSON schema requested and a response carrying
non-empty content, a content string the runtime parses as JSON yields an
output whose `response` is the parsed value; a content string the runtime
rejects yields a fatal error whose message includes the raw content. -/
theorem claim_C2_schema_content_parsing
    (parse : String → Except String Json) (p : Params) (body : RequestBody)
    (resp : RawChatResponse) (c : RawChoice) (cs : List RawChoice)
    (m : RawMessage) (content : String)
    (hbuild : buildRequestBody parse p = Except.ok (body, true))
    (hch : resp.choices = some (c :: cs))
    (hm : c.message = some m)
    (hc : m.content = some content)
    (hne : content ≠ "") :
    (∀ j, parse content = Except.ok j →
      processItem parse p (Except.ok resp) = Except.ok
        { response := ResponseVal.json j
          metadata :=
            { model := resp.model
              usage := resp.usage
              created := resp.created
              id := resp.id
              finish_reason := c.finish_reason } }) ∧
    (∀ emsg, parse content = Except.error emsg →
      ∃ msgPre msgPost,
        processItem parse p (Except.ok resp) =
          Except.error (ExecErr.opErr (msgPre ++ content ++ msgPost))) := by
  have hred : processItem parse p (Except.ok resp) =
      (if hJ : True then
        match parse content with
        | Except.ok j => Except.ok
            { response := ResponseVal.json j
              metadata :=
                { model := resp.model, usage := resp.usage, created := resp.created,
                  id := resp.id, finish_reason := c.finish_reason } }
        | Except.error m2 =>
          Except.error
            (ExecErr.opErr
              ("Failed to parse response as JSON: " ++ m2 ++ ". Content: " ++ content))
      else Except.error (ExecErr.opErr "")) := by
    rw [dif_pos trivial]
    unfold processItem
    rw [hbuild]
    show mapResponse parse true resp = _
    unfold mapResponse
    rw [hch]
    dsimp only
    rw [hm]
    dsimp only
    rw [hc]
    simp [hne]
  rw [dif_pos trivial] at hred
  constructor
  · intro j hj
    rw [hred, hj]
  · intro emsg hemsg
    refine ⟨"Failed to parse response as JSON: " ++ emsg ++ ". Content: ", "", ?_⟩
    rw [hred, hemsg]
    simp

/-- Witness for C2: schema parameters, content `contentGreeting` parsed by
the oracle to the greeting object. -/
theorem claim_C2_witness :
    processItem sampleParse schemaParams (Except.ok jsonContentResp) = Except.ok
      { response := ResponseVal.json (Json.obj [("greeting", Json.str "hi")])
        metadata :=
          { model := some "test-model"
            usage := some (Json.obj [("prompt_tokens", Json.num 5), ("completion_tokens", Json.num 10)])
            created := some 1700000000
            id := some "chatcmpl-abc"
            finish_reason := some "stop" } } :=
  (claim_C2_schema_content_parsing sampleParse schemaParams _ jsonContentResp
      { message := some { content := some "contentGreeting" }, finish_reason := some "stop" } []
      { content := some "contentGreeting" } "contentGreeting" rfl rfl rfl rfl
      (by decide)).1
    (Json.obj [("greeting", Json.str "hi")]) rfl

/-- C3: with a schema string that is non-empty after trimming, a parse to an
object with at least one key attaches the wrapped `response_format`, and a
parse failure raises the fatal `Invalid JSON Schema` error. -/
theorem claim_C3_response_format_wrapping
    (parse : String → Except String Json) (p : Params)
    (htrim : jsTrim p.jsonSchemaStr ≠ "") :
    (∀ fields, parse p.jsonSchemaStr = Except.ok (Json.obj fields) → fields ≠ [] →
      ∃ body, buildRequestBody parse p = Except.ok (body, true) ∧
        body.response_format = some
          { type := "json_schema"
            json_schema :=
              { name := "outputSchema", strict := true, schema := Json.obj fields } }) ∧
    (∀ emsg, parse p.jsonSchemaStr = Except.error emsg →
      buildRequestBody parse p =
        Except.error (ExecErr.opErr ("Invalid JSON Schema: " ++ emsg))) := by
  have hs : p.jsonSchemaStr ≠ "" := by
    intro h
    apply htrim
    rw [h]
    decide
  constructor
  · intro fields hparse hne
    have heq : buildRequestBody parse p = Except.ok
        ({ model := p.modelName
           messages := [{ role := "user", content := p.message }]
           temperature := p.temperature
           max_tokens := maxTokensField p.maxTokens
           response_format := some
             { type := "json_schema"
               json_schema :=
                 { name := "outputSchema", strict := true, schema := Json.obj fields } } },
          true) := by
      unfold buildRequestBody
      rw [if_pos ⟨hs, htrim⟩, hparse]
      dsimp only [objKeysCount]
      rw [if_pos (List.length_pos.mpr hne)]
    exact ⟨_, heq, rfl⟩
  · intro emsg hparse
    unfold buildRequestBody
    rw [if_pos ⟨hs, htrim⟩, hparse]

/-- Witness for C3 at the concrete schema string `schemaOneKey`, which the
oracle parses to a one-key object, and at the rejected string `badjson`. -/
theorem claim_C3_witness :
    (∃ body, buildRequestBody sampleParse schemaParams = Except.ok (body, true) ∧
      body.response_format = some
        { type := "json_schema"
          json_schema :=
            { name := "outputSchema", strict := true
              schema := Json.obj [("type", Json.str "object")] } }) ∧
    buildRequestBody sampleParse badSchemaParams =
      Except.error (ExecErr.opErr "Invalid JSON Schema: Unexpected token badjson") := by
  constructor
  · exact (claim_C3_response_format_wrapping sampleParse schemaParams (by decide)).1
      [("type", Json.str "object")] rfl (by simp)
  · exact (claim_C3_response_format_wrapping sampleParse badSchemaParams (by decide)).2
      "Unexpected token badjson" rfl

/-- C4 (amended): when the JSON Schema parameter is non-empty AFTER TRIMMING
and the runtime rejects it as JSON, the item fails with the
`Invalid JSON Schema` error and the outcome is the same for every transport
behaviour, i.e. the HTTP transport is never consulted. -/
theorem claim_C4_invalid_schema_before_request
    (parse : String → Except String Json) (p : Params) (emsg : String)
    (htrim : jsTrim p.jsonSchemaStr ≠ "")
    (hparse : parse p.jsonSchemaStr = Except.error emsg) :
    ∀ transport, processItem parse p transport =
      Except.error (ExecErr.opErr ("Invalid JSON Schema: " ++ emsg)) := by
  intro t
  have hs : p.jsonSchemaStr ≠ "" := by
    intro h
    apply htrim
    rw [h]
    decide
  have hb : buildRequestBody parse p =
      Except.error (ExecErr.opErr ("Invalid JSON Schema: " ++ emsg)) := by
    unfold buildRequestBody
    rw [if_pos ⟨hs, htrim⟩, hparse]
  unfold processItem
  rw [hb]

/-- Witness for the amended C4: the rejected schema string `badjson` fails
identically under a successful and under a failing transport. -/
theorem claim_C4_witness :
    processItem sampleParse badSchemaParams (Except.ok sampleResp) =
      Except.error (ExecErr.opErr "Invalid JSON Schema: Unexpected token badjson") ∧
    processItem sampleParse badSchemaParams (Except.error genericTransportError) =
      Except.error (ExecErr.opErr "Invalid JSON Schema: Unexpected token badjson") :=
  ⟨claim_C4_invalid_schema_before_request sampleParse badSchemaParams
      "Unexpected token badjson" (by decide) rfl (Except.ok sampleResp),
    claim_C4_invalid_schema_before_request sampleParse badSchemaParams
      "Unexpected token badjson" (by decide) rfl (Except.error genericTransportError)⟩

/-- Counterexample to C4 as stated: the schema parameter `" "` is a
non-empty string the runtime rejects as JSON, yet the item does not fail
with `Invalid JSON Schema` — the whitespace-only string is skipped by the
`trim` check, the request proceeds, and the outcome depends on the
transport. -/
theorem claim_C4_counterexample :
    blankSchemaParams.jsonSchemaStr ≠ "" ∧
    sampleParse blankSchemaParams.jsonSchemaStr = Except.error "Unexpected token  " ∧
    processItem sampleParse blankSchemaParams (Except.ok sampleResp) = Except.ok
      { response := ResponseVal.str "Hello world"
        metadata :=
          { model := some "test-model"
            usage := some (Json.obj [("prompt_tokens", Json.num 5), ("completion_tokens", Json.num 10)])
            created := some 1700000000
            id := some "chatcmpl-abc"
            finish_reason := some "stop" } } ∧
    processItem sampleParse blankSchemaParams (Except.error genericTransportError) =
      Except.error (ExecErr.apiErr "LM Studio request failed: Connection refused") :=
  ⟨by decide, rfl, rfl, rfl⟩

/-- C5: when the request body was built and the transport fails, a
timeout-classified error code raises the dedicated timeout error naming the
configured timeout (matching `timed out after 30 seconds` when the timeout
is 30), and any other failure raises the generic request-failed error
carrying the underlying message. -/
theorem claim_C5_transport_error_translation
    (parse : String → Except String Json) (p : Params) (body : RequestBody)
    (hjs : Bool) (e : TransportError)
    (hbuild : buildRequestBody parse p = Except.ok (body, hjs)) :
    (isTimeoutCode e = true →
      processItem parse p (Except.error e) =
        Except.error (ExecErr.opErr
          ("Request timed out after " ++ toString p.timeout ++
            " seconds. Consider increasing the timeout for larger models.")) ∧
      (p.timeout = 30 → ∃ msgPre msgPost,
        "Request timed out after " ++ toString p.timeout ++
            " seconds. Consider increasing the timeout for larger models." =
          msgPre ++ "timed out after 30 seconds" ++ msgPost)) ∧
    (isTimeoutCode e = false →
      processItem parse p (Except.error e) =
        Except.error (ExecErr.apiErr ("LM Studio request failed: " ++ e.message))) := by
  have hred : processItem parse p (Except.error e) =
      Except.error (classifyTransportError p.timeout e) := by
    unfold processItem
    rw [hbuild]
  constructor
  · intro ht
    constructor
    · rw [hred]
      unfold classifyTransportError
      rw [if_pos ht]
    · intro h30
      rw [h30]
      exact ⟨"Request ", ". Consider increasing the timeout for larger models.", by decide⟩
  · intro hf
    rw [hred]
    unfold classifyTransportError
    rw [if_neg (by simp [hf])]

/-- Witness for C5: a 30 second timeout with an `ETIMEDOUT` cause code, and
a generic `Connection refused` failure. -/
theorem claim_C5_witness :
    processItem sampleParse timeout30Params (Except.error timeoutTransportError) =
      Except.error (ExecErr.opErr
        "Request timed out after 30 seconds. Consider increasing the timeout for larger models.") ∧
    (∃ msgPre msgPost,
      "Request timed out after " ++ toString timeout30Params.timeout ++
          " seconds. Consider increasing the timeout for larger models." =
        msgPre ++ "timed out after 30 seconds" ++ msgPost) ∧
    processItem sampleParse plainParams (Except.error genericTransportError) =
      Except.error (ExecErr.apiErr "LM Studio request failed: Connection refused") := by
  have h1 := (claim_C5_transport_error_translation sampleParse timeout30Params _ false
    timeoutTransportError rfl).1 (by decide)
  refine ⟨h1.1, h1.2 rfl, ?_⟩
  exact (claim_C5_transport_error_translation sampleParse plainParams _ false
    genericTransportError rfl).2 (by decide)

/-- With continue-on-fail enabled the loop always returns an output list. -/
theorem runItems_continue_total (parse : String → Except String Json) :
    ∀ (items : List (Params × Except TransportError RawChatResponse)) (i : Nat),
      ∃ outs, runItems parse true i items = Except.ok outs := by
  intro items
  induction items with
  | nil => intro i; exact ⟨[], rfl⟩
  | cons x rest ih =>
    intro i
    obtain ⟨outs, h⟩ := ih (i + 1)
    obtain ⟨px, tx⟩ := x
    cases hp : processItem parse px tx with
    | ok s =>
      refine ⟨{ json := ItemJson.success s, pairedItem := i } :: outs, ?_⟩
      unfold runItems
      rw [hp, h]
    | error e =>
      refine ⟨{ json := ItemJson.failure (ExecErr.message e), pairedItem := i } :: outs, ?_⟩
      unfold runItems
      rw [hp]
      show (if true then _ else _) = _
      rw [if_pos rfl, h]

/-- With continue-on-fail enabled, a failing item at offset `pre.length`
contributes an error row carrying the failure message and its index. -/
theorem runItems_continue_mem (parse : String → Except String Json)
    (p : Params) (t : Except TransportError RawChatResponse) (e : ExecErr)
    (hfail : processItem parse p t = Except.error e) :
    ∀ (pre post : List (Params × Except TransportError RawChatResponse)) (i : Nat),
      ∃ outs, runItems parse true i (pre ++ (p, t) :: post) = Except.ok outs ∧
        ({ json := ItemJson.failure (ExecErr.message e), pairedItem := i + pre.length } :
          OutputItem) ∈ outs := by
  intro pre
  induction pre with
  | nil =>
    intro post i
    obtain ⟨outs, h⟩ := runItems_continue_total parse post (i + 1)
    refine ⟨{ json := ItemJson.failure (ExecErr.message e), pairedItem := i } :: outs, ?_, ?_⟩
    · show runItems parse true i ((p, t) :: post) = _
      unfold runItems
      rw [hfail]
      show (if true then _ else _) = _
      rw [if_pos rfl, h]
    · exact List.mem_cons_self _ _
  | cons x xs ih =>
    intro post i
    obtain ⟨outs, h, hmem⟩ := ih post (i + 1)
    obtain ⟨px, tx⟩ := x
    have hidx : i + 1 + xs.length = i + (xs.length + 1) := by omega
    cases hp : processItem parse px tx with
    | ok s =>
      refine ⟨{ json := ItemJson.success s, pairedItem := i } :: outs, ?_, ?_⟩
      · show runItems parse true i ((px, tx) :: (xs ++ (p, t) :: post)) = _
        unfold runItems
        rw [hp, h]
      · rw [hidx] at hmem
        exact List.mem_cons_of_mem _ hmem
    | error e2 =>
      refine ⟨{ json := ItemJson.failure (ExecErr.message e2), pairedItem := i } :: outs, ?_, ?_⟩
      · show runItems parse true i ((px, tx) :: (xs ++ (p, t) :: post)) = _
        unfold runItems
        rw [hp]
        show (if true then _ else _) = _
        rw [if_pos rfl, h]
      · rw [hidx] at hmem
        exact List.mem_cons_of_mem _ hmem

/-- Without continue-on-fail, the first failing item aborts the run with the
error tagged by its index. -/
theorem runItems_abort_first_failure (parse : String → Except String Json)
    (p : Params) (t : Except TransportError RawChatResponse) (e : ExecErr)
    (hfail : processItem parse p t = Except.error e) :
    ∀ (pre post : List (Params × Except TransportError RawChatResponse)) (i : Nat),
      (∀ x ∈ pre, ∃ s, processItem parse x.1 x.2 = Except.ok s) →
      runItems parse false i (pre ++ (p, t) :: post) = Except.error (i + pre.length, e) := by
  intro pre
  induction pre with
  | nil =>
    intro post i _
    show runItems parse false i ((p, t) :: post) = _
    unfold runItems
    rw [hfail]
    rfl
  | cons x xs ih =>
    intro post i hok
    obtain ⟨s, hs⟩ := hok x (List.mem_cons_self _ _)
    have hrec := ih post (i + 1) (fun y hy => hok y (List.mem_cons_of_mem _ hy))
    show runItems parse false i (x :: (xs ++ (p, t) :: post)) = _
    obtain ⟨px, tx⟩ := x
    unfold runItems
    rw [hs, hrec]
    have : i + 1 + xs.length = i + (xs.length + 1) := by omega
    rw [this]
    rfl

/-- C6: a failing item with continue-on-failure enabled does not abort the
batch and contributes an output row whose `json.error` is the failure
message, paired with the failing item's index; with continue-on-failure
disabled (and every earlier item succeeding) the error aborts the whole
invocation tagged with that index. -/
theorem claim_C6_continue_on_fail_policy
    (parse : String → Except String Json)
    (pre post : List (Params × Except TransportError RawChatResponse))
    (p : Params) (t : Except TransportError RawChatResponse) (e : ExecErr)
    (hfail : processItem parse p t = Except.error e) :
    (∃ outs, runItems parse true 0 (pre ++ (p, t) :: post) = Except.ok outs ∧
      ({ json := ItemJson.failure (ExecErr.message e), pairedItem := pre.length } :
        OutputItem) ∈ outs) ∧
    ((∀ x ∈ pre, ∃ s, processItem parse x.1 x.2 = Except.ok s) →
      runItems parse false 0 (pre ++ (p, t) :: post) = Except.error (pre.length, e)) := by
  constructor
  · have h := runItems_continue_mem parse p t e hfail pre post 0
    simpa using h
  · intro hok
    have h := runItems_abort_first_failure parse p t e hfail pre post 0 hok
    simpa using h

/-- Witness for C6: one succeeding item followed by one item whose request
fails with `Connection refused`. -/
theorem claim_C6_witness :
    (∃ outs, runItems sampleParse true 0
        [(plainParams, Except.ok sampleResp), (plainParams, Except.error genericTransportError)] =
        Except.ok outs ∧
      ({ json := ItemJson.failure "LM Studio request failed: Connection refused",
          pairedItem := 1 } : OutputItem) ∈ outs) ∧
    runItems sampleParse false 0
        [(plainParams, Except.ok sampleResp), (plainParams, Except.error genericTransportError)] =
      Except.error (1, ExecErr.apiErr "LM Studio request failed: Connection refused") := by
  have h := claim_C6_continue_on_fail_policy sampleParse [(plainParams, Except.ok sampleResp)]
    [] plainParams (Except.error genericTransportError)
    (ExecErr.apiErr "LM Studio request failed: Connection refused") rfl
  refine ⟨h.1, h.2 ?_⟩
  intro x hx
  rw [List.mem_singleton.mp hx]
  exact ⟨_, rfl⟩

/-- When the filtered list is nonempty, `getModels` returns the sorted
filtered-and-formatted list. -/
theorem getModels_data_eq (lc : String → String → Int) (data : List LmStudioModel)
    (hne : data.filter isLlmOrVlm ≠ []) :
    getModels lc (Except.ok (some data)) =
      ((data.filter isLlmOrVlm).map formatModel).mergeSort
        (fun a b => lcLe lc a.name b.name) := by
  unfold getModels
  have hlen : (((data.filter isLlmOrVlm).map formatModel).mergeSort
      (fun a b => lcLe lc a.name b.name)).length = (data.filter isLlmOrVlm).length := by
    rw [(List.mergeSort_perm _ _).length_eq, List.length_map]
  have hnz : ¬ (((data.filter isLlmOrVlm).map formatModel).mergeSort
      (fun a b => lcLe lc a.name b.name)).length = 0 := by
    rw [hlen]
    exact fun h => hne (List.length_eq_zero.mp h)
  simp only [hnz, if_false]

/-- C7: the model list is a permutation of exactly the formatted `llm`/`vlm`
entries of the data array, it is sorted by display name under the
locale-aware comparator, and each entry's name carries the ` (loaded)`
suffix exactly for a `loaded` state, with the `Quantization:` description
exactly when a nonempty quantization label is present. -/
theorem claim_C7_model_listing
    (lc : String → String → Int)
    (htrans : ∀ a b c2, lcLe lc a b = true → lcLe lc b c2 = true → lcLe lc a c2 = true)
    (htotal : ∀ a b, (lcLe lc a b || lcLe lc b a) = true)
    (data : List LmStudioModel)
    (hne : data.filter isLlmOrVlm ≠ []) :
    (getModels lc (Except.ok (some data))).Perm
        ((data.filter isLlmOrVlm).map formatModel) ∧
    (getModels lc (Except.ok (some data))).Pairwise
        (fun a b => lcLe lc a.name b.name = true) ∧
    (∀ o ∈ getModels lc (Except.ok (some data)), ∃ md, md ∈ data ∧
      (md.type = some "llm" ∨ md.type = some "vlm") ∧
      o.name = md.id ++ (if md.state = some "loaded" then " (loaded)" else "") ∧
      o.value = md.id ∧
      o.description = (match md.quantization with
        | some q => if q ≠ "" then some ("Quantization: " ++ q) else none
        | none => none)) := by
  rw [getModels_data_eq lc data hne]
  refine ⟨List.mergeSort_perm _ _, ?_, ?_⟩
  · exact List.sorted_mergeSort
      (fun a b c2 => htrans a.name b.name c2.name)
      (fun a b => htotal a.name b.name) _
  · intro o ho
    have ho2 : o ∈ (data.filter isLlmOrVlm).map formatModel :=
      (List.mergeSort_perm _ _).mem_iff.mp ho
    obtain ⟨md, hmd, rfl⟩ := List.mem_map.mp ho2
    obtain ⟨hmem, hty⟩ := List.mem_filter.mp hmd
    refine ⟨md, hmem, ?_, rfl, rfl, rfl⟩
    simpa [isLlmOrVlm] using hty

/-- The concrete comparator `sampleLc` is nonpositive exactly for the
lexicographic order on strings. -/
theorem sampleLc_le_iff (a b : String) : lcLe sampleLc a b = true ↔ a ≤ b := by
  unfold lcLe sampleLc
  rw [decide_eq_true_iff]
  by_cases hab : a < b
  · simp only [hab, if_true]
    constructor
    · intro _
      exact le_of_lt hab
    · intro _
      decide
  · by_cases hba : b < a
    · simp only [hab, if_false, hba, if_true]
      constructor
      · intro h
        exact absurd h (by decide)
      · intro h
        exact absurd hba (not_lt_of_le h)
    · simp only [hab, if_false, hba]
      constructor
      · intro _
        exact le_of_not_lt hba
      · intro _
        decide

/-- Transitivity of the `sampleLc` order. -/
theorem sampleLc_trans :
    ∀ a b c2, lcLe sampleLc a b = true → lcLe sampleLc b c2 = true →
      lcLe sampleLc a c2 = true := by
  intro a b c2 h1 h2
  rw [sampleLc_le_iff] at h1 h2 ⊢
  exact le_trans h1 h2

/-- Totality of the `sampleLc` order. -/
theorem sampleLc_total :
    ∀ a b, (lcLe sampleLc a b || lcLe sampleLc b a) = true := by
  intro a b
  rcases le_total a b with h | h
  · rw [Bool.or_eq_true, sampleLc_le_iff]
    exact Or.inl h
  · rw [Bool.or_eq_true, sampleLc_le_iff, sampleLc_le_iff]
    exact Or.inr h

/-- Witness for C7 at the unit-test model list (`llm`, `llm`, `asr`, `vlm`)
under the lexicographic comparator. -/
theorem claim_C7_witness :
    (getModels sampleLc (Except.ok (some sampleModels))).Perm
        ((sampleModels.filter isLlmOrVlm).map formatModel) ∧
    (getModels sampleLc (Except.ok (some sampleModels))).Pairwise
        (fun a b => lcLe sampleLc a.name b.name = true) := by
  have h := claim_C7_model_listing sampleLc sampleLc_trans sampleLc_total sampleModels
    (by decide)
  exact ⟨h.1, h.2.1⟩

/-- C8: the model-listing operation never fails: every outcome yields a
nonempty option list, a transport failure yields the single
"could not connect" sentinel, a body without a data array yields the single
"no models" sentinel, and so does a data array with no llm/vlm entry. -/
theorem claim_C8_listing_never_fails (lc : String → String → Int)
    (outcome : Except Unit (Option (List LmStudioModel))) :
    getModels lc outcome ≠ [] ∧
    (∀ u : Unit, outcome = Except.error u → getModels lc outcome = [couldNotConnectOption]) ∧
    (outcome = Except.ok none → getModels lc outcome = [noModelsOption]) ∧
    (∀ data, outcome = Except.ok (some data) → data.filter isLlmOrVlm = [] →
      getModels lc outcome = [noModelsOption]) := by
  refine ⟨?_, ?_, ?_, ?_⟩
  · cases outcome with
    | error u => simp [getModels]
    | ok od =>
      cases od with
      | none => simp [getModels]
      | some data =>
        by_cases h : data.filter isLlmOrVlm = []
        · simp [getModels, h]
        · rw [getModels_data_eq lc data h]
          intro hnil
          have hlen := congrArg List.length hnil
          rw [(List.mergeSort_perm _ _).length_eq, List.length_map] at hlen
          exact h (List.length_eq_zero.mp hlen)
  · intro u hu
    rw [hu]
    rfl
  · intro hn
    rw [hn]
    rfl
  · intro data hd hfil
    rw [hd]
    simp [getModels, hfil]

/-- Witness for C8: a failed GET yields the connect sentinel, a body
without a data array yields the no-models sentinel. -/
theorem claim_C8_witness :
    getModels sampleLc (Except.error ()) ≠ [] ∧
    getModels sampleLc (Except.error ()) = [couldNotConnectOption] ∧
    getModels sampleLc (Except.ok none) = [noModelsOption] := by
  refine ⟨(claim_C8_listing_never_fails sampleLc (Except.error ())).1,
    (claim_C8_listing_never_fails sampleLc (Except.error ())).2.1 () rfl,
    (claim_C8_listing_never_fails sampleLc (Except.ok none)).2.2.1 rfl⟩

/-- The head of `dropWhile q l`, when present, does not satisfy `q`. -/
theorem dropWhile_head_not_sat {α : Type} (q : α → Bool) :
    ∀ (l : List α) (c : α), (l.dropWhile q).head? = some c → q c = false := by
  intro l
  induction l with
  | nil =>
    intro c h
    simp [List.dropWhile] at h
  | cons a as ih =>
    intro c h
    rw [List.dropWhile_cons] at h
    by_cases hq : q a = true
    · rw [if_pos hq] at h
      exact ih c h
    · rw [if_neg hq] at h
      simp only [List.head?_cons, Option.some.injEq] at h
      rw [← h]
      exact Bool.eq_false_iff.mpr hq

/-- Every list splits as its trailing-slash-stripped part followed by a
block of slashes. -/
theorem strip_decomposition (l : List Char) :
    ∃ k, l = (l.reverse.dropWhile (fun c => c == '/')).reverse ++ List.replicate k '/' := by
  refine ⟨(l.reverse.takeWhile (fun c => c == '/')).length, ?_⟩
  conv_lhs => rw [← l.reverse_reverse]
  conv_lhs =>
    rw [← List.takeWhile_append_dropWhile (p := fun c => c == '/') (l := l.reverse)]
  rw [List.reverse_append]
  congr 1
  have hall : ∀ c ∈ l.reverse.takeWhile (fun c => c == '/'), c = '/' := by
    intro c hc
    have hbeq := List.mem_takeWhile_imp hc
    simpa using hbeq
  have hrepl : l.reverse.takeWhile (fun c => c == '/') =
      List.replicate (l.reverse.takeWhile (fun c => c == '/')).length '/' :=
    List.eq_replicate_iff.mpr ⟨rfl, hall⟩
  rw [hrepl, List.reverse_replicate, List.length_replicate]

/-- The trailing-slash strip never leaves a final slash. -/
theorem stripTrailingSlashes_last_not_slash (s : String) :
    lastIsSlash (stripTrailingSlashes s) = false := by
  show (((s.data.reverse.dropWhile (fun c => c == '/')).reverse).getLast? == some '/') = false
  rw [List.getLast?_reverse]
  cases hh : (s.data.reverse.dropWhile (fun c => c == '/')).head? with
  | none => rfl
  | some c =>
    have hc := dropWhile_head_not_sat _ _ c hh
    simpa using hc

/-- C9: the request URL is the scheme-completed base with every trailing
slash stripped, followed by the endpoint path; the `http://` prefix is added
exactly when the base starts with neither scheme; and the stripped base
never ends in a slash, so joining it to a path starting with a single slash
cannot create a double slash. -/
theorem claim_C9_url_building (hostUrl path : String) :
    buildUrl hostUrl path = stripTrailingSlashes (withScheme hostUrl) ++ path ∧
    (startsWithLit hostUrl "http://" = false ∧ startsWithLit hostUrl "https://" = false →
      withScheme hostUrl = "http://" ++ hostUrl) ∧
    ((startsWithLit hostUrl "http://" = true ∨ startsWithLit hostUrl "https://" = true) →
      withScheme hostUrl = hostUrl) ∧
    (∃ k, (withScheme hostUrl).data =
      (stripTrailingSlashes (withScheme hostUrl)).data ++ List.replicate k '/') ∧
    lastIsSlash (stripTrailingSlashes (withScheme hostUrl)) = false := by
  refine ⟨rfl, ?_, ?_, ?_, stripTrailingSlashes_last_not_slash _⟩
  · intro h
    unfold withScheme
    rw [if_pos h]
  · intro h
    unfold withScheme
    rw [if_neg ?_]
    rcases h with h | h
    · intro hc
      rw [h] at hc
      exact Bool.true_eq_false.mp hc.1
    · intro hc
      rw [h] at hc
      exact Bool.true_eq_false.mp hc.2
  · exact strip_decomposition (withScheme hostUrl).data

/-- Witness for C9 at a schemeless base with a trailing slash. -/
theorem claim_C9_witness :
    buildUrl "localhost:1234/" "/v1/chat/completions" =
      stripTrailingSlashes (withScheme "localhost:1234/") ++ "/v1/chat/completions" ∧
    withScheme "localhost:1234/" = "http://" ++ "localhost:1234/" ∧
    lastIsSlash (stripTrailingSlashes (withScheme "localhost:1234/")) = false := by
  have h := claim_C9_url_building "localhost:1234/" "/v1/chat/completions"
  exact ⟨h.1, h.2.1 (by decide), h.2.2.2.2⟩

/-- Inversion for a successful request build: the scalar body fields come
straight from the parameters, and `max_tokens` is `maxTokensField`. -/
theorem buildRequestBody_ok_inv (parse : String → Except String Json) (p : Params)
    (body : RequestBody) (hjs : Bool)
    (h : buildRequestBody parse p = Except.ok (body, hjs)) :
    body.max_tokens = maxTokensField p.maxTokens ∧
    body.model = p.modelName ∧
    body.messages = [{ role := "user", content := p.message }] ∧
    body.temperature = p.temperature := by
  simp only [buildRequestBody] at h
  split at h
  · split at h
    · exact absurd h (by simp)
    · split at h
      · exact absurd h (by simp)
      · split at h
        · simp only [Except.ok.injEq, Prod.mk.injEq] at h
          obtain ⟨hb, _⟩ := h
          subst hb
          exact ⟨rfl, rfl, rfl, rfl⟩
        · simp only [Except.ok.injEq, Prod.mk.injEq] at h
          obtain ⟨hb, _⟩ := h
          subst hb
          exact ⟨rfl, rfl, rfl, rfl⟩
  · simp only [Except.ok.injEq, Prod.mk.injEq] at h
    obtain ⟨hb, _⟩ := h
    subst hb
    exact ⟨rfl, rfl, rfl, rfl⟩

/-- Apart from `max_tokens`, the request-build outcome does not depend on
the `maxTokens` parameter. -/
theorem buildRequestBody_strip_const (parse : String → Except String Json)
    (p : Params) (m1 m2 : JsNumOrStr) :
    stripMaxTokens (buildRequestBody parse { p with maxTokens := m1 }) =
      stripMaxTokens (buildRequestBody parse { p with maxTokens := m2 }) := by
  simp only [buildRequestBody]
  by_cases hc : p.jsonSchemaStr ≠ "" ∧ jsTrim p.jsonSchemaStr ≠ ""
  · rw [if_pos hc, if_pos hc]
    cases hp : parse p.jsonSchemaStr with
    | error m => rfl
    | ok sc =>
      dsimp only
      cases hk : objKeysCount sc with
      | none => rfl
      | some k =>
        dsimp only
        by_cases hpos : 0 < k
        · rw [if_pos hpos, if_pos hpos]
          rfl
        · rw [if_neg hpos, if_neg hpos]
          rfl
  · rw [if_neg hc, if_neg hc]
    rfl

/-- C10: the request body carries `max_tokens` exactly when the `maxTokens`
parameter is a number strictly greater than zero; strings (including the
empty default and numeric strings), zero and negative numbers never produce
the field; and nothing else in the build outcome depends on the parameter. -/
theorem claim_C10_max_tokens_conditional
    (parse : String → Except String Json) (p : Params) :
    (∀ body hjs, buildRequestBody parse p = Except.ok (body, hjs) →
      ((∃ n, body.max_tokens = some n) ↔ (∃ n, p.maxTokens = JsNumOrStr.num n ∧ 0 < n)) ∧
      (∀ n, p.maxTokens = JsNumOrStr.num n → 0 < n → body.max_tokens = some n) ∧
      (∀ n, p.maxTokens = JsNumOrStr.num n → ¬ 0 < n → body.max_tokens = none) ∧
      (∀ s, p.maxTokens = JsNumOrStr.str s → body.max_tokens = none)) ∧
    (∀ m1 m2 : JsNumOrStr,
      stripMaxTokens (buildRequestBody parse { p with maxTokens := m1 }) =
        stripMaxTokens (buildRequestBody parse { p with maxTokens := m2 })) := by
  constructor
  · intro body hjs h
    have hmt := (buildRequestBody_ok_inv parse p body hjs h).1
    refine ⟨?_, ?_, ?_, ?_⟩
    · rw [hmt]
      cases hm : p.maxTokens with
      | num n =>
        by_cases hpos : 0 < n
        · simp [maxTokensField, hpos, show n ≠ 0 by omega]
        · simp [maxTokensField, hpos]
      | str s => simp [maxTokensField]
    · intro n hn hpos
      rw [hmt, hn]
      simp [maxTokensField, hpos, show n ≠ 0 by omega]
    · intro n hn hpos
      rw [hmt, hn]
      simp [maxTokensField, hpos]
    · intro s hs
      rw [hmt, hs]
      simp [maxTokensField]
  · exact buildRequestBody_strip_const parse p

/-- Witness for C10: maxTokens 50 yields `max_tokens = 50`, while swapping
the parameter for `0` or the numeric string `"5"` leaves the stripped body
identical. -/
theorem claim_C10_witness :
    (∃ body hjs, buildRequestBody sampleParse { plainParams with maxTokens := JsNumOrStr.num 50 }
        = Except.ok (body, hjs) ∧ body.max_tokens = some 50) ∧
    stripMaxTokens (buildRequestBody sampleParse { plainParams with maxTokens := JsNumOrStr.num 0 }) =
      stripMaxTokens (buildRequestBody sampleParse { plainParams with maxTokens := JsNumOrStr.str "5" }) := by
  constructor
  · refine ⟨{ model := "test-model"
              messages := [{ role := "user", content := "Hello" }]
              temperature := 0
              max_tokens := some 50
              response_format := none }, false, rfl, ?_⟩
    exact ((claim_C10_max_tokens_conditional sampleParse
        { plainParams with maxTokens := JsNumOrStr.num 50 }).1 _ false rfl).2.1 50 rfl (by decide)
  · exact (claim_C10_max_tokens_conditional sampleParse plainParams).2
      (JsNumOrStr.num 0) (JsNumOrStr.str "5")
